import Mathlib

set_option maxHeartbeats 2000000

/-!
Verification of the SPIT automated-dialer detection module (`src/app_spit.c`).

The core of the module is the function `isAutomatedDialer`: it resolves a
parameter set (compile-time defaults, overridden per invocation), then runs a
frame-driven detection loop over the audio frames read from the channel and
publishes a `(SPITSTATUS, SPITCAUSE)` pair of channel variables.

The shallow embedding below translates that C function into Lean:

* C `int` values are modelled as `Int` (the quantities involved are bounded by
  configuration values and total analysis time, far from 32-bit overflow).
* The external collaborators are modelled as explicit inputs:
  - each loop iteration consumes one `Event` (what `ast_read` delivered:
    a voice frame with its sample count and the value the silence detector
    `ast_dsp_silence` wrote into `dspsilence`, a NULL/CNG frame, a DTMF frame
    with its subclass integer, a hangup, or a frame of any other type),
    paired with the `Int` result of the preceding `ast_waitfor` call;
  - an exhausted event list corresponds to `ast_waitfor` returning `-1`
    (the only way the C loop exits without `break`), leaving `res = -1`.
* The mutable locals of `isAutomatedDialer` form the state record `St`;
  the loop body is `stepFrame`, the loop is `runLoop`, and `spitRun` adds the
  final `if (!res)` NOFRAMES rewrite and yields the published pair.
-/

namespace AppSpit

/-- C macro `STATE_IN_WORD` (value 1). -/
def STATE_IN_WORD : Int := 1

/-- C macro `STATE_IN_SILENCE` (value 2). -/
def STATE_IN_SILENCE : Int := 2

/-- `DEFAULT_SAMPLES_PER_MS` from the Asterisk headers: 8 samples per
millisecond at the 8 kHz default rate, used to turn a voice frame's sample
count into a millisecond duration. -/
def DEFAULT_SAMPLES_PER_MS : Nat := 8

/-- The process-wide default parameters (`dflt*` globals in `app_spit.c`).
`load_config` may overwrite them from `spit.conf`, so they are kept abstract
as a record; `stdDefaults` below holds the compiled-in initial values. -/
structure Defaults where
  initialSilence : Int
  greeting : Int
  afterGreetingSilence : Int
  totalAnalysisTime : Int
  minimumWordLength : Int
  betweenWordsSilence : Int
  maximumNumberOfWords : Int
  silenceThreshold : Int
  maximumWordLength : Int
  maxWaitTimeForFrame : Int
deriving DecidableEq

/-- The compiled-in initial values of the `dflt*` globals. -/
def stdDefaults : Defaults :=
  { initialSilence := 2500
  , greeting := 1500
  , afterGreetingSilence := 800
  , totalAnalysisTime := 5000
  , minimumWordLength := 100
  , betweenWordsSilence := 50
  , maximumNumberOfWords := 3
  , silenceThreshold := 256
  , maximumWordLength := 5000
  , maxWaitTimeForFrame := 50 }

/-- Per-invocation application arguments (`args.arg*` in `isAutomatedDialer`).
`none` models an absent or empty argument (`ast_strlen_zero`); `some v` models
a present argument whose `atoi` value is `v`. -/
structure Overrides where
  argInitialSilence : Option Int := none
  argGreeting : Option Int := none
  argAfterGreetingSilence : Option Int := none
  argTotalAnalysisTime : Option Int := none
  argMinimumWordLength : Option Int := none
  argBetweenWordsSilence : Option Int := none
  argMaximumNumberOfWords : Option Int := none
  argSilenceThreshold : Option Int := none
  argMaximumWordLength : Option Int := none
deriving DecidableEq

/-- The resolved parameter set of one invocation (the locals of
`isAutomatedDialer` after argument parsing and the `maxWaitTimeForFrame`
minimisation). -/
structure Params where
  initialSilence : Int
  greeting : Int
  afterGreetingSilence : Int
  totalAnalysisTime : Int
  minimumWordLength : Int
  betweenWordsSilence : Int
  maximumNumberOfWords : Int
  silenceThreshold : Int
  maximumWordLength : Int
  maxWaitTimeForFrame : Int
deriving DecidableEq

/-- Parameter resolution, lines 201-267 of `app_spit.c`: each local starts at
its default, a non-empty argument overwrites it, and then
`maxWaitTimeForFrame` is lowered (never raised) to each of the six duration
values by the chain of `if (maxWaitTimeForFrame > x) maxWaitTimeForFrame = x`
statements. -/
def resolveParams (d : Defaults) (a : Overrides) : Params :=
  let initialSilence := match a.argInitialSilence with
    | some v => v
    | none => d.initialSilence
  let greeting := match a.argGreeting with
    | some v => v
    | none => d.greeting
  let afterGreetingSilence := match a.argAfterGreetingSilence with
    | some v => v
    | none => d.afterGreetingSilence
  let totalAnalysisTime := match a.argTotalAnalysisTime with
    | some v => v
    | none => d.totalAnalysisTime
  let minimumWordLength := match a.argMinimumWordLength with
    | some v => v
    | none => d.minimumWordLength
  let betweenWordsSilence := match a.argBetweenWordsSilence with
    | some v => v
    | none => d.betweenWordsSilence
  let maximumNumberOfWords := match a.argMaximumNumberOfWords with
    | some v => v
    | none => d.maximumNumberOfWords
  let silenceThreshold := match a.argSilenceThreshold with
    | some v => v
    | none => d.silenceThreshold
  let maximumWordLength := match a.argMaximumWordLength with
    | some v => v
    | none => d.maximumWordLength
  let maxWaitTimeForFrame := d.maxWaitTimeForFrame
  let maxWaitTimeForFrame :=
    if maxWaitTimeForFrame > initialSilence then initialSilence else maxWaitTimeForFrame
  let maxWaitTimeForFrame :=
    if maxWaitTimeForFrame > greeting then greeting else maxWaitTimeForFrame
  let maxWaitTimeForFrame :=
    if maxWaitTimeForFrame > afterGreetingSilence then afterGreetingSilence else maxWaitTimeForFrame
  let maxWaitTimeForFrame :=
    if maxWaitTimeForFrame > totalAnalysisTime then totalAnalysisTime else maxWaitTimeForFrame
  let maxWaitTimeForFrame :=
    if maxWaitTimeForFrame > minimumWordLength then minimumWordLength else maxWaitTimeForFrame
  let maxWaitTimeForFrame :=
    if maxWaitTimeForFrame > betweenWordsSilence then betweenWordsSilence else maxWaitTimeForFrame
  { initialSilence := initialSilence
  , greeting := greeting
  , afterGreetingSilence := afterGreetingSilence
  , totalAnalysisTime := totalAnalysisTime
  , minimumWordLength := minimumWordLength
  , betweenWordsSilence := betweenWordsSilence
  , maximumNumberOfWords := maximumNumberOfWords
  , silenceThreshold := silenceThreshold
  , maximumWordLength := maximumWordLength
  , maxWaitTimeForFrame := maxWaitTimeForFrame }

/-- The parameter set of an invocation with no arguments and the compiled-in
defaults. -/
def dfltParams : Params := resolveParams stdDefaults {}

/-- One delivered result of an `ast_waitfor` / `ast_read` round:

* `hangup`: `ast_read` returned NULL;
* `dtmf subclass`: an `AST_FRAME_DTMF_BEGIN`/`AST_FRAME_DTMF_END` frame whose
  `subclass.integer` is `subclass` (Asterisk stores the digit as its ASCII
  code, e.g. 53 for digit 5; the C code prints `subclass - 48`);
* `voice samples dsp`: an `AST_FRAME_VOICE` frame with `samples` samples
  (`ast_codec_samples_count`), where `dsp` is the value the external
  `ast_dsp_silence` call leaves in `dspsilence` after it was zeroed
  (0 when the detector reports continued voice);
* `cngOrNull`: an `AST_FRAME_NULL` or `AST_FRAME_CNG` frame;
* `control`: a frame of any other type, which the loop body ignores. -/
inductive Event where
  | hangup
  | dtmf (subclass : Int)
  | voice (samples : Nat) (dsp : Nat)
  | cngOrNull
  | control
deriving DecidableEq

/-- The mutable locals of the detection loop. -/
structure St where
  inInitialSilence : Bool
  inGreeting : Bool
  voiceDuration : Int
  silenceDuration : Int
  iTotalTime : Int
  iWordsCount : Int
  currentState : Int
  consecutiveVoiceDuration : Int
  dspsilence : Int
deriving DecidableEq

/-- The initial values of the loop locals (lines 184-193). -/
def initSt : St :=
  { inInitialSilence := true
  , inGreeting := false
  , voiceDuration := 0
  , silenceDuration := 0
  , iTotalTime := 0
  , iWordsCount := 0
  , currentState := STATE_IN_WORD
  , consecutiveVoiceDuration := 0
  , dspsilence := 0 }

/-- Result of one loop body execution: either fall through to the next
iteration, or `break` carrying the status and cause written into the buffers,
the value of `res` at the `break`, and the state at that point. -/
inductive Outcome where
  | next (s : St)
  | done (status : String) (cause : String) (res : Int) (s : St)
deriving DecidableEq

/-- The state carried by an outcome. -/
def Outcome.state : Outcome → St
  | .next s => s
  | .done _ _ _ s => s

/-- The status written by a `break` outcome (the untouched empty buffer for a
fall-through). -/
def Outcome.statusOf : Outcome → String
  | .next _ => ""
  | .done st _ _ _ => st

/-- The cause written by a `break` outcome. -/
def Outcome.causeOf : Outcome → String
  | .next _ => ""
  | .done _ ca _ _ => ca

/-- The `res` value at a `break` outcome. -/
def Outcome.resOf : Outcome → Int
  | .next _ => 0
  | .done _ _ res _ => res

/-- The silence branch of the loop body (lines 341-375): records the
accumulated detector silence into `silenceDuration`, performs the
word-boundary transition, then checks the initial-silence and after-greeting
terminal conditions in that order. -/
def silenceBlock (p : Params) (s : St) : Outcome :=
  let s := { s with silenceDuration := s.dspsilence }
  let s :=
    if p.betweenWordsSilence ≤ s.silenceDuration then
      { s with currentState := STATE_IN_SILENCE, consecutiveVoiceDuration := 0 }
    else s
  if s.inInitialSilence = true ∧ p.initialSilence ≤ s.silenceDuration then
    .done ("HUMAN")
      (("INITIALSILENCE-") ++ toString s.silenceDuration ++ ("-") ++ toString p.initialSilence)
      1 s
  else if p.afterGreetingSilence ≤ s.silenceDuration ∧ s.inGreeting = true then
    .done ("HUMAN")
      (("SILENCEAFTERNOISE-") ++ toString s.silenceDuration ++ ("-") ++ toString p.afterGreetingSilence)
      1 s
  else .next s

/-- The voice branch of the loop body (lines 376-425): accumulates voice
durations, counts a word on a silence-to-word transition, then checks the
max-word-length, max-words and long-greeting terminal conditions in that
order; finally resets `silenceDuration` and performs the one-time greeting
transition.  The max-word-length `break` does not set `res = 1`, so it
carries the current `ast_waitfor` result `r`. -/
def voiceBlock (p : Params) (s : St) (framelength : Int) (r : Int) : Outcome :=
  let s := { s with consecutiveVoiceDuration := s.consecutiveVoiceDuration + framelength
                  , voiceDuration := s.voiceDuration + framelength }
  let s :=
    if p.minimumWordLength ≤ s.consecutiveVoiceDuration ∧ s.currentState = STATE_IN_SILENCE then
      { s with iWordsCount := s.iWordsCount + 1, currentState := STATE_IN_WORD }
    else s
  if p.maximumWordLength ≤ s.consecutiveVoiceDuration then
    .done ("MACHINE") (("MAXWORDLENGTH-") ++ toString s.consecutiveVoiceDuration) r s
  else if p.maximumNumberOfWords ≤ s.iWordsCount then
    .done ("MACHINE")
      (("MAXWORDS-") ++ toString s.iWordsCount ++ ("-") ++ toString p.maximumNumberOfWords)
      1 s
  else if s.inGreeting = true ∧ p.greeting ≤ s.voiceDuration then
    .done ("MACHINE")
      (("LONGGREETING-") ++ toString s.voiceDuration ++ ("-") ++ toString p.greeting)
      1 s
  else
    let s := if p.minimumWordLength ≤ s.voiceDuration then { s with silenceDuration := 0 } else s
    let s :=
      if p.minimumWordLength ≤ s.consecutiveVoiceDuration ∧ s.inGreeting = false then
        { s with inInitialSilence := false, inGreeting := true }
      else s
    .next s

/-- One execution of the loop body (lines 296-431) on the delivered event
`ev`, with `r` the result of this iteration's `ast_waitfor` call. -/
def stepFrame (p : Params) (s : St) (ev : Event) (r : Int) : Outcome :=
  match ev with
  | .hangup => .done ("HANGUP") ("") 1 s
  | .dtmf subclass => .done ("DTMF") (("DTMFFRAME-") ++ toString (subclass - 48)) 1 s
  | .control => .next s
  | .voice samples dsp =>
      let framelength : Int := (samples / DEFAULT_SAMPLES_PER_MS : Nat)
      let s := { s with iTotalTime := s.iTotalTime + framelength }
      if p.totalAnalysisTime ≤ s.iTotalTime then
        .done ("NOTSURE") (("TIMEOUT-") ++ toString s.iTotalTime) r s
      else
        let s := { s with dspsilence := (dsp : Int) }
        if 0 < s.dspsilence then silenceBlock p s
        else voiceBlock p s framelength r
  | .cngOrNull =>
      let framelength : Int := 2 * p.maxWaitTimeForFrame
      let s := { s with iTotalTime := s.iTotalTime + framelength }
      if p.totalAnalysisTime ≤ s.iTotalTime then
        .done ("NOTSURE") (("TIMEOUT-") ++ toString s.iTotalTime) r s
      else
        let s := { s with dspsilence := s.dspsilence + 2 * p.maxWaitTimeForFrame }
        if 0 < s.dspsilence then silenceBlock p s
        else voiceBlock p s framelength r

/-- The state of the buffers and locals when the `while` loop is left:
the `spitStatus` and `spitCause` buffers (empty unless a `break` wrote them),
the value of `res`, and the loop locals. -/
structure LoopRes where
  status : String
  cause : String
  res : Int
  final : St
deriving DecidableEq

/-- The detection loop: each list element is one `ast_waitfor`/`ast_read`
round; an `ast_waitfor` result `≤ -1` ends the loop (`while (res > -1)`), and
an exhausted list stands for `ast_waitfor` returning `-1` on the next round. -/
def runLoop (p : Params) (s : St) : List (Event × Int) → LoopRes
  | [] => ⟨"", "", -1, s⟩
  | (ev, r) :: rest =>
      if r ≤ -1 then ⟨"", "", r, s⟩
      else
        match stepFrame p s ev r with
        | .next s' => runLoop p s' rest
        | .done st ca res s' => ⟨st, ca, res, s'⟩

/-- The published `(SPITSTATUS, SPITCAUSE)` pair: the loop result, rewritten
to `NOFRAMES` / `TIMEOUT-<elapsed>` by the `if (!res)` block (lines 434-439)
when `res` is 0 at loop exit. -/
def spitRun (p : Params) (tr : List (Event × Int)) : String × String :=
  let lr := runLoop p initSt tr
  if lr.res = 0 then (("NOFRAMES"), ("TIMEOUT-") ++ toString lr.final.iTotalTime)
  else (lr.status, lr.cause)

/-- The millisecond duration a delivered event adds to `iTotalTime`:
`samples / DEFAULT_SAMPLES_PER_MS` for a voice frame,
`2 * maxWaitTimeForFrame` for a NULL/CNG frame, nothing for the others. -/
def eventDuration (p : Params) : Event → Int
  | .voice samples _ => (samples / DEFAULT_SAMPLES_PER_MS : Nat)
  | .cngOrNull => 2 * p.maxWaitTimeForFrame
  | _ => 0

/-- The spec's "cause begins with" relation, as a character-list test. -/
def beginsWith (pre s : String) : Bool := pre.data.isPrefixOf s.data

/-- Whether an outcome is a loop `break`. -/
def Outcome.isDone : Outcome → Bool
  | .next _ => false
  | .done _ _ _ _ => true

/-- Shape of every terminal status/cause pair a loop-body `break` can write,
together with the `res` value it sets (`none` marks the two breaks that leave
`res` at the current `ast_waitfor` result). -/
def DoneShape (st ca : String) (s' : St) : Prop :=
  (st = ("HANGUP") ∧ ca = ("")) ∨
  (∃ d : Int, st = ("DTMF") ∧ ca = ("DTMFFRAME-") ++ toString d) ∨
  (st = ("NOTSURE") ∧ ca = ("TIMEOUT-") ++ toString s'.iTotalTime) ∨
  (∃ a b : Int, st = ("HUMAN") ∧
    (ca = ("INITIALSILENCE-") ++ toString a ++ ("-") ++ toString b ∨
     ca = ("SILENCEAFTERNOISE-") ++ toString a ++ ("-") ++ toString b)) ∨
  (∃ a b : Int, st = ("MACHINE") ∧
    (ca = ("MAXWORDLENGTH-") ++ toString a ∨
     ca = ("MAXWORDS-") ++ toString a ++ ("-") ++ toString b ∨
     ca = ("LONGGREETING-") ++ toString a ++ ("-") ++ toString b))

/-- Iteration bound of the detection loop: `ceil(totalAnalysisTime / d) + 1`
frames of duration at least `d` each. -/
def iterBound (total d : Int) : Nat := (total.toNat + d.toNat - 1) / d.toNat + 1

/-- Scenario-B trace family: `m` repetitions of (silence period, voice
burst); the silence period is a voice frame of `sN` ms whose silence-detector
reading is `D`, the burst a voice frame of `l` ms with detector reading 0. -/
def c1Trace (sN l D : Nat) : Nat → List (Event × Int)
  | 0 => []
  | Nat.succ k =>
      (Event.voice (8 * sN) D, 1) :: (Event.voice (8 * l) 0, 1) :: c1Trace sN l D k

/-- Loop state after `k` complete (silence, burst) pairs of the scenario-B
trace. -/
def c1State (sN l : Nat) : Nat → St
  | 0 => initSt
  | Nat.succ k =>
      { inInitialSilence := false
      , inGreeting := true
      , voiceDuration := ((k : Int) + 1) * (l : Int)
      , silenceDuration := 0
      , iTotalTime := ((k : Int) + 1) * ((sN : Int) + (l : Int))
      , iWordsCount := (k : Int) + 1
      , currentState := STATE_IN_WORD
      , consecutiveVoiceDuration := (l : Int)
      , dspsilence := 0 }

/-- Loop state in the middle of pair `k + 1`: after its silence frame,
before its burst frame. -/
def c1Mid (sN l D : Nat) : Nat → St
  | 0 =>
      { initSt with
        silenceDuration := (D : Int)
      , iTotalTime := (sN : Int)
      , currentState := STATE_IN_SILENCE
      , dspsilence := (D : Int) }
  | Nat.succ k =>
      { inInitialSilence := false
      , inGreeting := true
      , voiceDuration := ((k : Int) + 1) * (l : Int)
      , silenceDuration := (D : Int)
      , iTotalTime := ((k : Int) + 1) * ((sN : Int) + (l : Int)) + (sN : Int)
      , iWordsCount := (k : Int) + 1
      , currentState := STATE_IN_SILENCE
      , consecutiveVoiceDuration := 0
      , dspsilence := (D : Int) }

/-- Concrete parameter set for the scenario-B (C1) witness. -/
def c1WP : Params :=
  { initialSilence := 100, greeting := 100, afterGreetingSilence := 100
  , totalAnalysisTime := 100, minimumWordLength := 2, betweenWordsSilence := 3
  , maximumNumberOfWords := 2, silenceThreshold := 256, maximumWordLength := 100
  , maxWaitTimeForFrame := 50 }

/-- C1 counterexample trace: with the default parameters, three 100 ms
voice bursts (samples 800, detector silence 0) separated by two silence
readings of exactly `betweenWordsSilence = 50` ms - bursts separated, but
not preceded, by silence. -/
def c1CexTrace : List (Event × Int) :=
  [(Event.voice 800 0, 1), (Event.voice 8 50, 1), (Event.voice 800 0, 1),
   (Event.voice 8 50, 1), (Event.voice 800 0, 1)]

/-- Concrete parameter set for the C3 witness. -/
def c3WP : Params :=
  { initialSilence := 1000, greeting := 1000, afterGreetingSilence := 1000
  , totalAnalysisTime := 10, minimumWordLength := 100, betweenWordsSilence := 200
  , maximumNumberOfWords := 10, silenceThreshold := 256, maximumWordLength := 1000
  , maxWaitTimeForFrame := 3 }

/-- Concrete trace for the C3 witness: three NULL-frame timeout ticks. -/
def c3WTr : List (Event × Int) :=
  [(Event.cngOrNull, 0), (Event.cngOrNull, 0), (Event.cngOrNull, 0)]

/-- Concrete state for the C4 witness: just below maximumWordLength with the word count at its cap. -/
def c4WS : St := { initSt with consecutiveVoiceDuration := 4999, iWordsCount := 3 }

/-- Concrete parameter set for the C7 counterexample. -/
def c7P : Params :=
  { initialSilence := 1000, greeting := 1000, afterGreetingSilence := 1000
  , totalAnalysisTime := 300, minimumWordLength := 100, betweenWordsSilence := 50
  , maximumNumberOfWords := 10, silenceThreshold := 256, maximumWordLength := 1000
  , maxWaitTimeForFrame := 50 }

/-- C7 counterexample trace: one real voice frame (waitfor result 1),
then NULL-frame timeout ticks (waitfor result 0) until the analysis-time
budget is exhausted. -/
def c7Tr : List (Event × Int) :=
  [(Event.voice 800 0, 1), (Event.cngOrNull, 0), (Event.cngOrNull, 0)]

/-- Concrete parameter set for the C7 witness. -/
def c7WP : Params := { c7P with totalAnalysisTime := 100 }

/-- Concrete trace for the C7 witness: one voice frame crossing the budget. -/
def c7WTr : List (Event × Int) := [(Event.voice 800 0, 1)]

theorem eight_mul_div (a : Nat) : 8 * a / 8 = a :=
  Nat.mul_div_cancel_left a (by norm_num)

theorem beginsWith_append_self (a x : String) : beginsWith a (a ++ x) = true := by
  obtain ⟨l⟩ := a
  obtain ⟨m⟩ := x
  show l.isPrefixOf (l ++ m) = true
  simp [ List.isPrefixOf_iff_prefix]

theorem beginsWith_append₃ (a x y z : String) :
    beginsWith a (a ++ x ++ y ++ z) = true := by
  unfold beginsWith
  simp only [String.data_append, List.append_assoc]
  simp [ List.isPrefixOf_iff_prefix]

theorem not_bw_maxwords (x : String) :
    beginsWith ("MAXWORDS-") (("MAXWORDLENGTH-") ++ x) = false := by
  obtain ⟨m⟩ := x
  rfl

theorem not_bw_longgreeting (x : String) :
    beginsWith ("LONGGREETING-") (("MAXWORDLENGTH-") ++ x) = false := by
  obtain ⟨m⟩ := x
  rfl

theorem not_bw_recording_timeout (x : String) :
    beginsWith ("RECORDING") (("TIMEOUT-") ++ x) = false := by
  obtain ⟨m⟩ := x
  rfl

theorem not_bw_recording_dtmf (x : String) :
    beginsWith ("RECORDING") (("DTMFFRAME-") ++ x) = false := by
  obtain ⟨m⟩ := x
  rfl

theorem not_bw_recording_initialsilence (x y : String) :
    beginsWith ("RECORDING") (("INITIALSILENCE-") ++ x ++ ("-") ++ y) = false := by
  obtain ⟨m⟩ := x
  obtain ⟨k⟩ := y
  rfl

theorem not_bw_recording_afternoise (x y : String) :
    beginsWith ("RECORDING") (("SILENCEAFTERNOISE-") ++ x ++ ("-") ++ y) = false := by
  obtain ⟨m⟩ := x
  obtain ⟨k⟩ := y
  rfl

theorem not_bw_recording_maxwordlength (x : String) :
    beginsWith ("RECORDING") (("MAXWORDLENGTH-") ++ x) = false := by
  obtain ⟨m⟩ := x
  rfl

theorem not_bw_recording_maxwords (x y : String) :
    beginsWith ("RECORDING") (("MAXWORDS-") ++ x ++ ("-") ++ y) = false := by
  obtain ⟨m⟩ := x
  obtain ⟨k⟩ := y
  rfl

theorem not_bw_recording_longgreeting (x y : String) :
    beginsWith ("RECORDING") (("LONGGREETING-") ++ x ++ ("-") ++ y) = false := by
  obtain ⟨m⟩ := x
  obtain ⟨k⟩ := y
  rfl

theorem runLoop_cons (p : Params) (s : St) (ev : Event) (r : Int)
    (rest : List (Event × Int)) :
    runLoop p s ((ev, r) :: rest) =
      if r ≤ -1 then ⟨"", "", r, s⟩
      else
        match stepFrame p s ev r with
        | .next s' => runLoop p s' rest
        | .done st ca res s' => ⟨st, ca, res, s'⟩ := rfl

theorem runLoop_cons_done (p : Params) (s : St) (ev : Event) (r : Int)
    (rest : List (Event × Int)) (st ca : String) (res : Int) (s' : St)
    (hr : ¬ r ≤ -1) (h : stepFrame p s ev r = .done st ca res s') :
    runLoop p s ((ev, r) :: rest) = ⟨st, ca, res, s'⟩ := by
  rw [runLoop_cons, if_neg hr, h]

theorem runLoop_cons_next (p : Params) (s : St) (ev : Event) (r : Int)
    (rest : List (Event × Int)) (s' : St)
    (hr : ¬ r ≤ -1) (h : stepFrame p s ev r = .next s') :
    runLoop p s ((ev, r) :: rest) = runLoop p s' rest := by
  rw [runLoop_cons, if_neg hr, h]

theorem stepFrame_state_iTotalTime (p : Params) (s : St) (ev : Event) (r : Int) :
    (stepFrame p s ev r).state.iTotalTime = s.iTotalTime + eventDuration p ev := by
  cases ev with
  | hangup => simp [stepFrame, eventDuration, Outcome.state]
  | dtmf subclass => simp [stepFrame, eventDuration, Outcome.state]
  | control => simp [stepFrame, eventDuration, Outcome.state]
  | voice samples dsp =>
      simp only [stepFrame, eventDuration, silenceBlock, voiceBlock,
        apply_ite St.inInitialSilence, apply_ite St.inGreeting, apply_ite St.silenceDuration,
        apply_ite St.iWordsCount, apply_ite St.consecutiveVoiceDuration,
        apply_ite St.currentState, apply_ite St.voiceDuration, apply_ite St.iTotalTime,
        apply_ite St.dspsilence, ite_self]
      split_ifs <;> rfl
  | cngOrNull =>
      simp only [stepFrame, eventDuration, silenceBlock, voiceBlock,
        apply_ite St.inInitialSilence, apply_ite St.inGreeting, apply_ite St.silenceDuration,
        apply_ite St.iWordsCount, apply_ite St.consecutiveVoiceDuration,
        apply_ite St.currentState, apply_ite St.voiceDuration, apply_ite St.iTotalTime,
        apply_ite St.dspsilence, ite_self]
      split_ifs <;> rfl

theorem stepFrame_flags (p : Params) (s : St) (ev : Event) (r : Int)
    (hinv : s.inInitialSilence = !s.inGreeting) :
    (stepFrame p s ev r).state.inInitialSilence = !(stepFrame p s ev r).state.inGreeting := by
  cases ev with
  | hangup => simpa [stepFrame, Outcome.state] using hinv
  | dtmf subclass => simpa [stepFrame, Outcome.state] using hinv
  | control => simpa [stepFrame, Outcome.state] using hinv
  | voice samples dsp =>
      simp only [stepFrame, silenceBlock, voiceBlock,
        apply_ite St.inInitialSilence, apply_ite St.inGreeting, apply_ite St.silenceDuration,
        apply_ite St.iWordsCount, apply_ite St.consecutiveVoiceDuration,
        apply_ite St.currentState, apply_ite St.voiceDuration, apply_ite St.iTotalTime,
        apply_ite St.dspsilence, ite_self]
      split_ifs <;> first
        | exact hinv
        | rfl
  | cngOrNull =>
      simp only [stepFrame, silenceBlock, voiceBlock,
        apply_ite St.inInitialSilence, apply_ite St.inGreeting, apply_ite St.silenceDuration,
        apply_ite St.iWordsCount, apply_ite St.consecutiveVoiceDuration,
        apply_ite St.currentState, apply_ite St.voiceDuration, apply_ite St.iTotalTime,
        apply_ite St.dspsilence, ite_self]
      split_ifs <;> first
        | exact hinv
        | rfl

theorem stepFrame_done_inventory (p : Params) (s : St) (ev : Event) (r : Int)
    (st ca : String) (res : Int) (s' : St)
    (h : stepFrame p s ev r = .done st ca res s') : DoneShape st ca s' := by
  unfold DoneShape
  cases ev with
  | hangup =>
      simp only [stepFrame, Outcome.done.injEq] at h
      obtain ⟨rfl, rfl, rfl, rfl⟩ := h
      exact Or.inl ⟨rfl, rfl⟩
  | dtmf subclass =>
      simp only [stepFrame, Outcome.done.injEq] at h
      obtain ⟨rfl, rfl, rfl, rfl⟩ := h
      exact Or.inr (Or.inl ⟨_, rfl, rfl⟩)
  | control => simp only [stepFrame, reduceCtorEq] at h
  | voice samples dsp =>
      simp only [stepFrame, silenceBlock, voiceBlock,
        apply_ite St.inInitialSilence, apply_ite St.inGreeting, apply_ite St.silenceDuration,
        apply_ite St.iWordsCount, apply_ite St.consecutiveVoiceDuration,
        apply_ite St.currentState, apply_ite St.voiceDuration, apply_ite St.iTotalTime,
        apply_ite St.dspsilence, ite_self] at h
      split_ifs at h <;>
        simp only [Outcome.done.injEq, reduceCtorEq] at h <;>
        obtain ⟨rfl, rfl, rfl, rfl⟩ := h <;>
        first
        | exact Or.inr (Or.inr (Or.inl ⟨rfl, rfl⟩))
        | exact Or.inr (Or.inr (Or.inr (Or.inl ⟨_, _, rfl, Or.inl rfl⟩)))
        | exact Or.inr (Or.inr (Or.inr (Or.inl ⟨_, _, rfl, Or.inr rfl⟩)))
        | exact Or.inr (Or.inr (Or.inr (Or.inr ⟨_, 0, rfl, Or.inl rfl⟩)))
        | exact Or.inr (Or.inr (Or.inr (Or.inr ⟨_, _, rfl, Or.inr (Or.inl rfl)⟩)))
        | exact Or.inr (Or.inr (Or.inr (Or.inr ⟨_, _, rfl, Or.inr (Or.inr rfl)⟩)))
  | cngOrNull =>
      simp only [stepFrame, silenceBlock, voiceBlock,
        apply_ite St.inInitialSilence, apply_ite St.inGreeting, apply_ite St.silenceDuration,
        apply_ite St.iWordsCount, apply_ite St.consecutiveVoiceDuration,
        apply_ite St.currentState, apply_ite St.voiceDuration, apply_ite St.iTotalTime,
        apply_ite St.dspsilence, ite_self] at h
      split_ifs at h <;>
        simp only [Outcome.done.injEq, reduceCtorEq] at h <;>
        obtain ⟨rfl, rfl, rfl, rfl⟩ := h <;>
        first
        | exact Or.inr (Or.inr (Or.inl ⟨rfl, rfl⟩))
        | exact Or.inr (Or.inr (Or.inr (Or.inl ⟨_, _, rfl, Or.inl rfl⟩)))
        | exact Or.inr (Or.inr (Or.inr (Or.inl ⟨_, _, rfl, Or.inr rfl⟩)))
        | exact Or.inr (Or.inr (Or.inr (Or.inr ⟨_, 0, rfl, Or.inl rfl⟩)))
        | exact Or.inr (Or.inr (Or.inr (Or.inr ⟨_, _, rfl, Or.inr (Or.inl rfl)⟩)))
        | exact Or.inr (Or.inr (Or.inr (Or.inr ⟨_, _, rfl, Or.inr (Or.inr rfl)⟩)))

theorem stepFrame_done_status_ne (p : Params) (s : St) (ev : Event) (r : Int)
    (st ca : String) (res : Int) (s' : St)
    (h : stepFrame p s ev r = .done st ca res s') : st ≠ ("") := by
  have hinv := stepFrame_done_inventory p s ev r st ca res s' h
  unfold DoneShape at hinv
  rcases hinv with ⟨h1, _⟩ | ⟨d, h1, _⟩ | ⟨h1, _⟩ | ⟨a, b, h1, _⟩ | ⟨a, b, h1, _⟩ <;>
    rw [h1] <;> decide

theorem stepFrame_next_iTotalTime (p : Params) (s : St) (ev : Event) (r : Int)
    (s' : St) (h : stepFrame p s ev r = .next s') :
    s'.iTotalTime = s.iTotalTime + eventDuration p ev := by
  have h1 := stepFrame_state_iTotalTime p s ev r
  rw [h] at h1
  exact h1

theorem stepFrame_timeout_done (p : Params) (s : St) (ev : Event) (r d : Int)
    (hd : 0 < d) (hev : d ≤ eventDuration p ev)
    (hT : p.totalAnalysisTime ≤ s.iTotalTime) :
    (stepFrame p s ev r).isDone = true := by
  cases ev with
  | hangup => rfl
  | dtmf subclass => rfl
  | control =>
      simp only [eventDuration] at hev
      omega
  | voice samples dsp =>
      simp only [eventDuration] at hev
      simp only [stepFrame]
      rw [if_pos (by omega)]
      rfl
  | cngOrNull =>
      simp only [eventDuration] at hev
      simp only [stepFrame]
      rw [if_pos (by omega)]
      rfl

theorem runLoop_inventory (p : Params) :
    ∀ (tr : List (Event × Int)) (s : St),
      ((runLoop p s tr).status = ("") ∧ (runLoop p s tr).cause = ("")) ∨
      DoneShape (runLoop p s tr).status (runLoop p s tr).cause (runLoop p s tr).final := by
  intro tr
  induction tr with
  | nil => intro s; exact Or.inl ⟨rfl, rfl⟩
  | cons e rest ih =>
      intro s
      obtain ⟨ev, r⟩ := e
      rw [runLoop_cons]
      by_cases hr : r ≤ -1
      · rw [if_pos hr]
        exact Or.inl ⟨rfl, rfl⟩
      · rw [if_neg hr]
        cases hstep : stepFrame p s ev r with
        | next s' => exact ih s'
        | done st ca res s' =>
            exact Or.inr (stepFrame_done_inventory p s ev r st ca res s' hstep)

theorem runLoop_flags (p : Params) :
    ∀ (tr : List (Event × Int)) (s : St),
      s.inInitialSilence = !s.inGreeting →
      (runLoop p s tr).final.inInitialSilence = !(runLoop p s tr).final.inGreeting := by
  intro tr
  induction tr with
  | nil => intro s hs; exact hs
  | cons e rest ih =>
      intro s hs
      obtain ⟨ev, r⟩ := e
      rw [runLoop_cons]
      by_cases hr : r ≤ -1
      · rw [if_pos hr]; exact hs
      · rw [if_neg hr]
        have hstep := stepFrame_flags p s ev r hs
        cases h : stepFrame p s ev r with
        | next s' =>
            rw [h] at hstep
            exact ih s' hstep
        | done st ca res s' =>
            rw [h] at hstep
            exact hstep

theorem iterBound_spec (total d : Int) (htot : 0 ≤ total) (hd : 0 < d) :
    total - (((total.toNat + d.toNat - 1) / d.toNat : Nat) : Int) * d ≤ 0 := by
  have hdn : 0 < d.toNat := by omega
  have h1 := Nat.div_add_mod (total.toNat + d.toNat - 1) d.toNat
  have h2 : (total.toNat + d.toNat - 1) % d.toNat < d.toNat :=
    Nat.mod_lt _ hdn
  have h4 : ((d.toNat : Nat) : Int) = d := by omega
  have key : total ≤ ((d.toNat * ((total.toNat + d.toNat - 1) / d.toNat) : Nat) : Int) := by
    omega
  have key2 : ((d.toNat * ((total.toNat + d.toNat - 1) / d.toNat) : Nat) : Int)
      = ((d.toNat : Nat) : Int) * (((total.toNat + d.toNat - 1) / d.toNat : Nat) : Int) :=
    Nat.cast_mul _ _
  rw [key2, h4] at key
  linarith [key]

theorem runLoop_take_bound (p : Params) (d : Int) (hd : 0 < d) :
    ∀ (n : Nat) (tr : List (Event × Int)) (s : St),
      (∀ e ∈ tr, d ≤ eventDuration p e.1 ∧ 0 ≤ e.2) →
      p.totalAnalysisTime - (n : Int) * d ≤ s.iTotalTime →
      runLoop p s tr = runLoop p s (tr.take (n + 1)) ∧
      (n + 1 ≤ tr.length → (runLoop p s tr).status ≠ ("")) := by
  intro n
  induction n with
  | zero =>
      intro tr s htr hs
      cases tr with
      | nil => exact ⟨rfl, by intro h; exact absurd h (by simp)⟩
      | cons e rest =>
          obtain ⟨ev, r⟩ := e
          obtain ⟨hev0, hr0⟩ := htr (ev, r) (List.mem_cons_self _ _)
          have hev : d ≤ eventDuration p ev := hev0
          have hr : ¬ r ≤ -1 := by omega
          have hT : p.totalAnalysisTime ≤ s.iTotalTime := by
            simpa using hs
          have hdone := stepFrame_timeout_done p s ev r d hd hev hT
          cases hstep : stepFrame p s ev r with
          | next s' => rw [hstep] at hdone; exact Bool.noConfusion hdone
          | done st ca res s' =>
              have hne := stepFrame_done_status_ne p s ev r st ca res s' hstep
              refine ⟨?_, ?_⟩
              · rw [runLoop_cons_done p s ev r rest st ca res s' hr hstep]
                simp only [List.take_succ_cons, List.take_zero]
                rw [runLoop_cons_done p s ev r [] st ca res s' hr hstep]
              · intro _
                rw [runLoop_cons_done p s ev r rest st ca res s' hr hstep]
                exact hne
  | succ n ih =>
      intro tr s htr hs
      cases tr with
      | nil => exact ⟨rfl, by intro h; exact absurd h (by simp)⟩
      | cons e rest =>
          obtain ⟨ev, r⟩ := e
          obtain ⟨hev0, hr0⟩ := htr (ev, r) (List.mem_cons_self _ _)
          have hev : d ≤ eventDuration p ev := hev0
          have hr : ¬ r ≤ -1 := by omega
          cases hstep : stepFrame p s ev r with
          | done st ca res s' =>
              have hne := stepFrame_done_status_ne p s ev r st ca res s' hstep
              refine ⟨?_, ?_⟩
              · rw [runLoop_cons_done p s ev r rest st ca res s' hr hstep]
                simp only [List.take_succ_cons]
                rw [runLoop_cons_done p s ev r _ st ca res s' hr hstep]
              · intro _
                rw [runLoop_cons_done p s ev r rest st ca res s' hr hstep]
                exact hne
          | next s' =>
              have hT' := stepFrame_next_iTotalTime p s ev r s' hstep
              have hexp : (((n : Nat) + 1 : Nat) : Int) * d = (n : Int) * d + d := by
                push_cast
                ring
              have hs' : p.totalAnalysisTime - (n : Int) * d ≤ s'.iTotalTime := by
                rw [hT']
                have hh := hs
                rw [hexp] at hh
                omega
              obtain ⟨ih1, ih2⟩ := ih rest s'
                (fun e he => htr e (List.mem_cons_of_mem _ he)) hs'
              refine ⟨?_, ?_⟩
              · rw [runLoop_cons_next p s ev r rest s' hr hstep]
                simp only [List.take_succ_cons]
                rw [runLoop_cons_next p s ev r _ s' hr hstep]
                exact ih1
              · intro hlen
                rw [runLoop_cons_next p s ev r rest s' hr hstep]
                exact ih2 (by simpa using hlen)

theorem c1_sil (p : Params) (sN l D N : Nat) (k : Nat)
    (hD₁ : p.betweenWordsSilence ≤ (D : Int)) (hD₂ : 0 < D)
    (hD₃ : (D : Int) < p.initialSilence) (hD₄ : (D : Int) < p.afterGreetingSilence)
    (hT : ((N : Int)) * ((sN : Int) + (l : Int)) < p.totalAnalysisTime)
    (hk : k + 1 ≤ N) :
    stepFrame p (c1State sN l k) (Event.voice (8 * sN) D) 1 =
      .next (c1Mid sN l D k) := by
  have hsl : (0 : Int) ≤ (sN : Int) + (l : Int) := by positivity
  cases k with
  | zero =>
      have hgT : ¬ (p.totalAnalysisTime ≤ (0 : Int) + (sN : Int)) := by
        have h1 : (1 : Int) * ((sN : Int) + (l : Int))
            ≤ ((N : Int)) * ((sN : Int) + (l : Int)) :=
          mul_le_mul_of_nonneg_right (by omega) hsl
        have h2 : (1 : Int) * ((sN : Int) + (l : Int)) = (sN : Int) + (l : Int) := one_mul _
        omega
      simp only [c1State, initSt, stepFrame, silenceBlock, voiceBlock,
        DEFAULT_SAMPLES_PER_MS, eight_mul_div,
        apply_ite St.inInitialSilence, apply_ite St.inGreeting, apply_ite St.silenceDuration,
        apply_ite St.iWordsCount, apply_ite St.consecutiveVoiceDuration,
        apply_ite St.currentState, apply_ite St.voiceDuration, apply_ite St.iTotalTime,
        apply_ite St.dspsilence, ite_self]
      rw [if_neg hgT]
      rw [if_pos (show (0 : Int) < (D : Int) by exact_mod_cast hD₂)]
      rw [if_neg (fun h => absurd h.2 (by omega))]
      rw [if_neg (fun h => Bool.noConfusion h.2)]
      simp only [if_pos hD₁]
      simp only [c1Mid, initSt, Outcome.next.injEq, St.mk.injEq]
      all_goals and_intros <;> first
        | rfl
        | trivial
        | omega
  | succ k =>
      have hgT : ¬ (p.totalAnalysisTime
          ≤ ((k : Int) + 1) * ((sN : Int) + (l : Int)) + (sN : Int)) := by
        have h1 : ((k : Int) + 1) * ((sN : Int) + (l : Int))
            ≤ ((N : Int) - 1) * ((sN : Int) + (l : Int)) :=
          mul_le_mul_of_nonneg_right (by omega) hsl
        have h2 : ((N : Int) - 1) * ((sN : Int) + (l : Int))
            = ((N : Int)) * ((sN : Int) + (l : Int)) - ((sN : Int) + (l : Int)) := by ring
        omega
      simp only [c1State, initSt, stepFrame, silenceBlock, voiceBlock,
        DEFAULT_SAMPLES_PER_MS, eight_mul_div,
        apply_ite St.inInitialSilence, apply_ite St.inGreeting, apply_ite St.silenceDuration,
        apply_ite St.iWordsCount, apply_ite St.consecutiveVoiceDuration,
        apply_ite St.currentState, apply_ite St.voiceDuration, apply_ite St.iTotalTime,
        apply_ite St.dspsilence, ite_self]
      rw [if_neg hgT]
      rw [if_pos (show (0 : Int) < (D : Int) by exact_mod_cast hD₂)]
      rw [if_neg (fun h => Bool.noConfusion h.1)]
      rw [if_neg (fun h => absurd h.1 (by omega))]
      simp only [if_pos hD₁]
      simp only [c1Mid, initSt, Outcome.next.injEq, St.mk.injEq]
      all_goals and_intros <;> first
        | rfl
        | trivial
        | omega

theorem c1_burst_cont (p : Params) (sN l D N : Nat) (k : Nat)
    (hl₁ : p.minimumWordLength ≤ (l : Int)) (hl₂ : (l : Int) < p.maximumWordLength)
    (hN : p.maximumNumberOfWords = (N : Int))
    (hT : ((N : Int)) * ((sN : Int) + (l : Int)) < p.totalAnalysisTime)
    (hG : ((N : Int) - 1) * (l : Int) < p.greeting)
    (hk2 : k + 2 ≤ N) :
    stepFrame p (c1Mid sN l D k) (Event.voice (8 * l) 0) 1 =
      .next (c1State sN l (k + 1)) := by
  have hsl : (0 : Int) ≤ (sN : Int) + (l : Int) := by positivity
  have hl0 : (0 : Int) ≤ (l : Int) := Int.natCast_nonneg l
  cases k with
  | zero =>
      have hgT : ¬ (p.totalAnalysisTime ≤ (sN : Int) + (l : Int)) := by
        have h1 : (1 : Int) * ((sN : Int) + (l : Int))
            ≤ ((N : Int)) * ((sN : Int) + (l : Int)) :=
          mul_le_mul_of_nonneg_right (by omega) hsl
        have h2 : (1 : Int) * ((sN : Int) + (l : Int)) = (sN : Int) + (l : Int) := one_mul _
        omega
      simp only [c1Mid, initSt, stepFrame, silenceBlock, voiceBlock,
        DEFAULT_SAMPLES_PER_MS, eight_mul_div,
        apply_ite St.inInitialSilence, apply_ite St.inGreeting, apply_ite St.silenceDuration,
        apply_ite St.iWordsCount, apply_ite St.consecutiveVoiceDuration,
        apply_ite St.currentState, apply_ite St.voiceDuration, apply_ite St.iTotalTime,
        apply_ite St.dspsilence, ite_self]
      rw [if_neg hgT]
      rw [if_neg (show ¬ ((0 : Int) < ((0 : Nat) : Int)) by norm_num)]
      simp only [if_pos (show p.minimumWordLength ≤ (0 : Int) + (l : Int) ∧ True
        from ⟨by omega, trivial⟩)]
      simp only [if_neg (show ¬ (p.maximumWordLength ≤ (0 : Int) + (l : Int)) by omega)]
      simp only [if_neg (show ¬ (p.maximumNumberOfWords ≤ (0 : Int) + 1) by omega)]
      simp only [if_neg (show ¬ (false = true ∧ p.greeting ≤ (0 : Int) + (l : Int))
        from fun h => Bool.noConfusion h.1)]
      simp only [if_pos (show p.minimumWordLength ≤ (0 : Int) + (l : Int) by omega)]
      rw [(rfl : c1State sN l (0 + 1) = c1State sN l (Nat.succ 0))]
      simp only [c1State, initSt, Outcome.next.injEq, St.mk.injEq]
      all_goals and_intros <;> first
        | rfl
        | trivial
        | omega
        | (push_cast; ring)
  | succ k =>
      have hgT : ¬ (p.totalAnalysisTime
          ≤ ((k : Int) + 1) * ((sN : Int) + (l : Int)) + (sN : Int) + (l : Int)) := by
        have h1 : ((k : Int) + 1) * ((sN : Int) + (l : Int))
            ≤ ((N : Int) - 1) * ((sN : Int) + (l : Int)) :=
          mul_le_mul_of_nonneg_right (by omega) hsl
        have h2 : ((N : Int) - 1) * ((sN : Int) + (l : Int))
            = ((N : Int)) * ((sN : Int) + (l : Int)) - ((sN : Int) + (l : Int)) := by ring
        omega
      have hGk : ¬ (True ∧ p.greeting ≤ ((k : Int) + 1) * (l : Int) + (l : Int)) := by
        have h1 : ((k : Int) + 2) * (l : Int) ≤ ((N : Int) - 1) * (l : Int) :=
          mul_le_mul_of_nonneg_right (by omega) hl0
        have h2 : ((k : Int) + 2) * (l : Int) = ((k : Int) + 1) * (l : Int) + (l : Int) := by
          ring
        intro h
        omega
      have hvd : p.minimumWordLength ≤ ((k : Int) + 1) * (l : Int) + (l : Int) := by
        have h1 : (0 : Int) ≤ ((k : Int) + 1) * (l : Int) :=
          mul_nonneg (by positivity) hl0
        omega
      simp only [c1Mid, initSt, stepFrame, silenceBlock, voiceBlock,
        DEFAULT_SAMPLES_PER_MS, eight_mul_div,
        apply_ite St.inInitialSilence, apply_ite St.inGreeting, apply_ite St.silenceDuration,
        apply_ite St.iWordsCount, apply_ite St.consecutiveVoiceDuration,
        apply_ite St.currentState, apply_ite St.voiceDuration, apply_ite St.iTotalTime,
        apply_ite St.dspsilence, ite_self]
      rw [if_neg hgT]
      rw [if_neg (show ¬ ((0 : Int) < ((0 : Nat) : Int)) by norm_num)]
      simp only [if_pos (show p.minimumWordLength ≤ (0 : Int) + (l : Int) ∧ True
        from ⟨by omega, trivial⟩)]
      simp only [if_neg (show ¬ (p.maximumWordLength ≤ (0 : Int) + (l : Int)) by omega)]
      simp only [if_neg (show ¬ (p.maximumNumberOfWords ≤ (k : Int) + 1 + 1) by omega)]
      simp only [if_neg hGk]
      simp only [if_pos hvd]
      simp only [if_neg (show ¬ (p.minimumWordLength ≤ (0 : Int) + (l : Int) ∧ true = false)
        from fun h => Bool.noConfusion h.2)]
      rw [(rfl : c1State sN l (k + 1 + 1) = c1State sN l (Nat.succ (Nat.succ k)))]
      simp only [c1State, initSt, Outcome.next.injEq, St.mk.injEq]
      all_goals and_intros <;> first
        | rfl
        | trivial
        | omega
        | (push_cast; ring)

theorem c1_burst_last (p : Params) (sN l D N : Nat) (k : Nat)
    (hl₁ : p.minimumWordLength ≤ (l : Int)) (hl₂ : (l : Int) < p.maximumWordLength)
    (hN : p.maximumNumberOfWords = (N : Int))
    (hT : ((N : Int)) * ((sN : Int) + (l : Int)) < p.totalAnalysisTime)
    (hk1 : k + 1 = N) :
    ∃ s' ca, stepFrame p (c1Mid sN l D k) (Event.voice (8 * l) 0) 1 =
        .done ("MACHINE") ca 1 s' ∧
      beginsWith ("MAXWORDS-") ca = true := by
  have hsl : (0 : Int) ≤ (sN : Int) + (l : Int) := by positivity
  cases k with
  | zero =>
      have hgT : ¬ (p.totalAnalysisTime ≤ (sN : Int) + (l : Int)) := by
        have h1 : (1 : Int) * ((sN : Int) + (l : Int))
            ≤ ((N : Int)) * ((sN : Int) + (l : Int)) :=
          mul_le_mul_of_nonneg_right (by omega) hsl
        have h2 : (1 : Int) * ((sN : Int) + (l : Int)) = (sN : Int) + (l : Int) := one_mul _
        omega
      simp only [c1Mid, initSt, stepFrame, silenceBlock, voiceBlock,
        DEFAULT_SAMPLES_PER_MS, eight_mul_div,
        apply_ite St.inInitialSilence, apply_ite St.inGreeting, apply_ite St.silenceDuration,
        apply_ite St.iWordsCount, apply_ite St.consecutiveVoiceDuration,
        apply_ite St.currentState, apply_ite St.voiceDuration, apply_ite St.iTotalTime,
        apply_ite St.dspsilence, ite_self]
      rw [if_neg hgT]
      rw [if_neg (show ¬ ((0 : Int) < ((0 : Nat) : Int)) by norm_num)]
      simp only [if_pos (show p.minimumWordLength ≤ (0 : Int) + (l : Int) ∧ True
        from ⟨by omega, trivial⟩)]
      simp only [if_neg (show ¬ (p.maximumWordLength ≤ (0 : Int) + (l : Int)) by omega)]
      simp only [if_pos (show p.maximumNumberOfWords ≤ (0 : Int) + 1 by omega)]
      exact ⟨_, _, rfl, beginsWith_append₃ _ _ _ _⟩
  | succ k =>
      have hgT : ¬ (p.totalAnalysisTime
          ≤ ((k : Int) + 1) * ((sN : Int) + (l : Int)) + (sN : Int) + (l : Int)) := by
        have h1 : ((k : Int) + 1) * ((sN : Int) + (l : Int))
            ≤ ((N : Int) - 1) * ((sN : Int) + (l : Int)) :=
          mul_le_mul_of_nonneg_right (by omega) hsl
        have h2 : ((N : Int) - 1) * ((sN : Int) + (l : Int))
            = ((N : Int)) * ((sN : Int) + (l : Int)) - ((sN : Int) + (l : Int)) := by ring
        omega
      simp only [c1Mid, initSt, stepFrame, silenceBlock, voiceBlock,
        DEFAULT_SAMPLES_PER_MS, eight_mul_div,
        apply_ite St.inInitialSilence, apply_ite St.inGreeting, apply_ite St.silenceDuration,
        apply_ite St.iWordsCount, apply_ite St.consecutiveVoiceDuration,
        apply_ite St.currentState, apply_ite St.voiceDuration, apply_ite St.iTotalTime,
        apply_ite St.dspsilence, ite_self]
      rw [if_neg hgT]
      rw [if_neg (show ¬ ((0 : Int) < ((0 : Nat) : Int)) by norm_num)]
      simp only [if_pos (show p.minimumWordLength ≤ (0 : Int) + (l : Int) ∧ True
        from ⟨by omega, trivial⟩)]
      simp only [if_neg (show ¬ (p.maximumWordLength ≤ (0 : Int) + (l : Int)) by omega)]
      simp only [if_pos (show p.maximumNumberOfWords ≤ (k : Int) + 1 + 1 by omega)]
      exact ⟨_, _, rfl, beginsWith_append₃ _ _ _ _⟩

theorem c1_run (p : Params) (sN l D N : Nat)
    (hl₁ : p.minimumWordLength ≤ (l : Int)) (hl₂ : (l : Int) < p.maximumWordLength)
    (hN : p.maximumNumberOfWords = (N : Int))
    (hD₁ : p.betweenWordsSilence ≤ (D : Int)) (hD₂ : 0 < D)
    (hD₃ : (D : Int) < p.initialSilence) (hD₄ : (D : Int) < p.afterGreetingSilence)
    (hT : ((N : Int)) * ((sN : Int) + (l : Int)) < p.totalAnalysisTime)
    (hG : ((N : Int) - 1) * (l : Int) < p.greeting) :
    ∀ (m k : Nat), k + m = N → 1 ≤ m →
      (runLoop p (c1State sN l k) (c1Trace sN l D m)).status = ("MACHINE") ∧
      beginsWith ("MAXWORDS-")
        (runLoop p (c1State sN l k) (c1Trace sN l D m)).cause = true ∧
      (runLoop p (c1State sN l k) (c1Trace sN l D m)).res = 1 := by
  intro m
  induction m with
  | zero => intro k hk hm; exact absurd hm (by omega)
  | succ m ih =>
      intro k hk hm
      have hr1 : ¬ ((1 : Int) ≤ -1) := by omega
      have hsil := c1_sil p sN l D N k hD₁ hD₂ hD₃ hD₄ hT (by omega)
      rw [show c1Trace sN l D (m + 1) =
        (Event.voice (8 * sN) D, 1) :: (Event.voice (8 * l) 0, 1) :: c1Trace sN l D m
        from rfl]
      rw [runLoop_cons_next p _ _ 1 _ _ hr1 hsil]
      cases m with
      | zero =>
          obtain ⟨s', ca, hstep, hbw⟩ :=
            c1_burst_last p sN l D N k hl₁ hl₂ hN hT (by omega)
          rw [runLoop_cons_done p _ _ 1 _ _ _ 1 s' hr1 hstep]
          exact ⟨rfl, hbw, rfl⟩
      | succ m =>
          have hburst := c1_burst_cont p sN l D N k hl₁ hl₂ hN hT hG (by omega)
          rw [runLoop_cons_next p _ _ 1 _ _ hr1 hburst]
          exact ih (k + 1) (by omega) (by omega)

/-- C1 (amended): for every parameter set and every frame sequence that
delivers `maximumNumberOfWords` voice bursts of at least
`minimumWordLength` consecutive voice each, every burst preceded by a
silence period of at least `betweenWordsSilence` (including one before the
first burst - the word automaton starts in the in-word state, so a burst
not entered from silence is not counted), with no earlier terminal
condition firing, the run terminates with status `MACHINE` and a cause
beginning with `MAXWORDS-`. -/
theorem c1_maxwords_scenario (p : Params) (sN l D N : Nat)
    (hl₁ : p.minimumWordLength ≤ (l : Int)) (hl₂ : (l : Int) < p.maximumWordLength)
    (hN : p.maximumNumberOfWords = (N : Int)) (hN1 : 1 ≤ N)
    (hD₁ : p.betweenWordsSilence ≤ (D : Int)) (hD₂ : 0 < D)
    (hD₃ : (D : Int) < p.initialSilence) (hD₄ : (D : Int) < p.afterGreetingSilence)
    (hT : ((N : Int)) * ((sN : Int) + (l : Int)) < p.totalAnalysisTime)
    (hG : ((N : Int) - 1) * (l : Int) < p.greeting) :
    (spitRun p (c1Trace sN l D N)).1 = ("MACHINE") ∧
    beginsWith ("MAXWORDS-") (spitRun p (c1Trace sN l D N)).2 = true := by
  have h := c1_run p sN l D N hl₁ hl₂ hN hD₁ hD₂ hD₃ hD₄ hT hG N 0 (by omega) hN1
  obtain ⟨h1, h2, h3⟩ := h
  have h1i : (runLoop p initSt (c1Trace sN l D N)).status = ("MACHINE") := h1
  have h2i : beginsWith ("MAXWORDS-")
      (runLoop p initSt (c1Trace sN l D N)).cause = true := h2
  have h3i : (runLoop p initSt (c1Trace sN l D N)).res = 1 := h3
  simp only [spitRun]
  rw [if_neg (show ¬ ((runLoop p initSt (c1Trace sN l D N)).res = 0) by
    rw [h3i]; norm_num)]
  exact ⟨h1i, h2i⟩

/-- C1 witness: the amended scenario at concrete parameters (two bursts, cap 2). -/
theorem c1_maxwords_scenario_witness :
    (spitRun c1WP (c1Trace 1 2 3 2)).1 = ("MACHINE") ∧
    beginsWith ("MAXWORDS-") (spitRun c1WP (c1Trace 1 2 3 2)).2 = true :=
  c1_maxwords_scenario c1WP 1 2 3 2 (by decide) (by decide) (by decide) (by decide)
    (by decide) (by decide) (by decide) (by decide) (by decide) (by decide)

/-- C1 counterexample: with the default parameters
(`maximumNumberOfWords = 3`), a sequence of 3 distinct voice bursts of
100 ms `≥ minimumWordLength` separated (but not preceded) by silence
periods of 50 ms `≥ betweenWordsSilence`, with no earlier terminal
condition firing, does not end in `MACHINE`/`MAXWORDS-`: the automaton
starts `STATE_IN_WORD`, so the first burst is never counted and the run
ends undecided. -/
theorem c1_counterexample :
    ¬ ((spitRun dfltParams c1CexTrace).1 = ("MACHINE") ∧
       beginsWith ("MAXWORDS-") (spitRun dfltParams c1CexTrace).2 = true) := by decide

/-- C2 counterexample: two consecutive NULL frames with the default
parameters: each contributes `2 * maxWaitTimeForFrame = 100`, but after the
second frame `silenceDuration` is the accumulated 200, not the per-frame
contribution 100. -/
theorem c2_counterexample :
    (runLoop dfltParams initSt [(Event.cngOrNull, 0), (Event.cngOrNull, 0)]).final.silenceDuration
      ≠ 2 * dfltParams.maxWaitTimeForFrame := by decide

/-- C2 (amended): a non-voice frame taken through the silence branch adds the
fixed `2 * maxWaitTimeForFrame` to the running `dspsilence` accumulator
(which only voice frames reset), and `silenceDuration` is then set to the
accumulated value - it equals the per-frame contribution only when the
accumulator was previously zero. -/
theorem c2_silence_contribution (p : Params) (s : St) (r : Int)
    (hT : s.iTotalTime + 2 * p.maxWaitTimeForFrame < p.totalAnalysisTime)
    (hpos : 0 < s.dspsilence + 2 * p.maxWaitTimeForFrame) :
    (stepFrame p s Event.cngOrNull r).state.silenceDuration
        = s.dspsilence + 2 * p.maxWaitTimeForFrame ∧
    (stepFrame p s Event.cngOrNull r).state.dspsilence
        = s.dspsilence + 2 * p.maxWaitTimeForFrame := by
  simp only [stepFrame, silenceBlock, voiceBlock,
    apply_ite St.inInitialSilence, apply_ite St.inGreeting, apply_ite St.silenceDuration,
    apply_ite St.iWordsCount, apply_ite St.consecutiveVoiceDuration,
    apply_ite St.currentState, apply_ite St.voiceDuration, apply_ite St.iTotalTime,
    apply_ite St.dspsilence, ite_self]
  rw [if_neg (by omega), if_pos hpos]
  split_ifs <;> exact ⟨rfl, rfl⟩

/-- C2 witness: one NULL frame from the initial state, zero accumulator. -/
theorem c2_silence_contribution_witness :
    (stepFrame dfltParams initSt Event.cngOrNull 0).state.silenceDuration
        = initSt.dspsilence + 2 * dfltParams.maxWaitTimeForFrame ∧
    (stepFrame dfltParams initSt Event.cngOrNull 0).state.dspsilence
        = initSt.dspsilence + 2 * dfltParams.maxWaitTimeForFrame :=
  c2_silence_contribution dfltParams initSt 0 (by decide) (by decide)

/-- C3: `iTotalTime` never decreases across the iterations driven by the
trace, and with every frame at least `d > 0` milliseconds long the whole
loop decides within `ceil(totalAnalysisTime / d) + 1` iterations: frames
beyond that bound are never consumed, and if the trace is that long the
loop has produced a terminal status. -/
theorem c3_total_time_monotone_bounded (p : Params) (d : Int)
    (tr : List (Event × Int)) (hd : 0 < d) (htot : 0 ≤ p.totalAnalysisTime)
    (htr : ∀ e ∈ tr, d ≤ eventDuration p e.1 ∧ 0 ≤ e.2) :
    (∀ (s : St) (e : Event × Int), e ∈ tr →
        s.iTotalTime ≤ (stepFrame p s e.1 e.2).state.iTotalTime) ∧
    runLoop p initSt tr = runLoop p initSt (tr.take (iterBound p.totalAnalysisTime d)) ∧
    (iterBound p.totalAnalysisTime d ≤ tr.length →
      (runLoop p initSt tr).status ≠ ("")) := by
  have hb := runLoop_take_bound p d hd
    ((p.totalAnalysisTime.toNat + d.toNat - 1) / d.toNat) tr initSt htr
    (by
      have := iterBound_spec p.totalAnalysisTime d htot hd
      show p.totalAnalysisTime - _ ≤ (0 : Int)
      exact this)
  refine ⟨?_, hb.1, hb.2⟩
  intro s e he
  have h1 := stepFrame_state_iTotalTime p s e.1 e.2
  have h2 := (htr e he).1
  omega

/-- C3 witness: three 6 ms ticks against a 10 ms budget decide within the bound. -/
theorem c3_witness : (runLoop c3WP initSt c3WTr).status ≠ ("") :=
  (c3_total_time_monotone_bounded c3WP 5 c3WTr (by decide) (by decide) (by decide)).2.2
    (by decide)

/-- C4: when the max-word-length and max-words conditions both hold on the
same voice frame, the max-word-length check (evaluated first) decides: the
loop exits with status `MACHINE` and a `MAXWORDLENGTH-` cause, not
`MAXWORDS-` and not `LONGGREETING-`, and the counters past the exit point
(`silenceDuration` and the two phase flags) are not updated that
iteration. -/
theorem c4_tie_break_order (p : Params) (s : St) (samples : Nat) (r : Int)
    (rest : List (Event × Int)) (hr : ¬ r ≤ -1)
    (hT : s.iTotalTime + ((samples / DEFAULT_SAMPLES_PER_MS : Nat) : Int)
        < p.totalAnalysisTime)
    (hlen : p.maximumWordLength ≤ s.consecutiveVoiceDuration
        + ((samples / DEFAULT_SAMPLES_PER_MS : Nat) : Int))
    (hwords : p.maximumNumberOfWords ≤ s.iWordsCount) :
    (runLoop p s ((Event.voice samples 0, r) :: rest)).status = ("MACHINE") ∧
    beginsWith ("MAXWORDLENGTH-")
      (runLoop p s ((Event.voice samples 0, r) :: rest)).cause = true ∧
    beginsWith ("MAXWORDS-")
      (runLoop p s ((Event.voice samples 0, r) :: rest)).cause = false ∧
    beginsWith ("LONGGREETING-")
      (runLoop p s ((Event.voice samples 0, r) :: rest)).cause = false ∧
    (runLoop p s ((Event.voice samples 0, r) :: rest)).res = r ∧
    (runLoop p s ((Event.voice samples 0, r) :: rest)).final.silenceDuration
        = s.silenceDuration ∧
    (runLoop p s ((Event.voice samples 0, r) :: rest)).final.inInitialSilence
        = s.inInitialSilence ∧
    (runLoop p s ((Event.voice samples 0, r) :: rest)).final.inGreeting
        = s.inGreeting := by
  have hstep : ∃ s', stepFrame p s (Event.voice samples 0) r =
      .done ("MACHINE")
        (("MAXWORDLENGTH-") ++ toString (s.consecutiveVoiceDuration
          + ((samples / DEFAULT_SAMPLES_PER_MS : Nat) : Int))) r s' ∧
      s'.silenceDuration = s.silenceDuration ∧
      s'.inInitialSilence = s.inInitialSilence ∧
      s'.inGreeting = s.inGreeting := by
    simp only [stepFrame, silenceBlock, voiceBlock,
      apply_ite St.inInitialSilence, apply_ite St.inGreeting, apply_ite St.silenceDuration,
      apply_ite St.iWordsCount, apply_ite St.consecutiveVoiceDuration,
      apply_ite St.currentState, apply_ite St.voiceDuration, apply_ite St.iTotalTime,
      apply_ite St.dspsilence, ite_self]
    rw [if_neg (by omega), if_neg (by norm_num), if_pos hlen]
    refine ⟨_, rfl, ?_, ?_, ?_⟩ <;>
      simp only [apply_ite St.silenceDuration, apply_ite St.inInitialSilence,
        apply_ite St.inGreeting, ite_self]
  obtain ⟨s', hstep, h1, h2, h3⟩ := hstep
  rw [runLoop_cons_done p s _ r rest _ _ r s' hr hstep]
  exact ⟨rfl, beginsWith_append_self _ _, not_bw_maxwords _, not_bw_longgreeting _,
    rfl, h1, h2, h3⟩

/-- C4 witness: both terminal conditions hold on one frame; MAXWORDLENGTH wins. -/
theorem c4_tie_break_order_witness :
    (runLoop dfltParams c4WS [(Event.voice 8 0, 1)]).status = ("MACHINE") ∧
    beginsWith ("MAXWORDLENGTH-")
      (runLoop dfltParams c4WS [(Event.voice 8 0, 1)]).cause = true ∧
    beginsWith ("MAXWORDS-")
      (runLoop dfltParams c4WS [(Event.voice 8 0, 1)]).cause = false ∧
    beginsWith ("LONGGREETING-")
      (runLoop dfltParams c4WS [(Event.voice 8 0, 1)]).cause = false ∧
    (runLoop dfltParams c4WS [(Event.voice 8 0, 1)]).res = 1 ∧
    (runLoop dfltParams c4WS [(Event.voice 8 0, 1)]).final.silenceDuration
        = c4WS.silenceDuration ∧
    (runLoop dfltParams c4WS [(Event.voice 8 0, 1)]).final.inInitialSilence
        = c4WS.inInitialSilence ∧
    (runLoop dfltParams c4WS [(Event.voice 8 0, 1)]).final.inGreeting
        = c4WS.inGreeting :=
  c4_tie_break_order dfltParams c4WS 8 1 [] (by decide) (by decide) (by decide) (by decide)

/-- C5: a DTMF frame carrying digit 5 (subclass the ASCII code 53) delivered
first terminates the run immediately with status `DTMF` and cause exactly
`DTMFFRAME-5`. -/
theorem c5_dtmf_digit5 (p : Params) (tr : List (Event × Int)) (r : Int)
    (hr : ¬ r ≤ -1) :
    spitRun p ((Event.dtmf 53, r) :: tr) = (("DTMF"), ("DTMFFRAME-5")) := by
  simp only [spitRun, runLoop_cons, if_neg hr, stepFrame]
  norm_num
  decide

/-- C5 witness: the DTMF theorem at the default parameters. -/
theorem c5_dtmf_digit5_witness :
    spitRun dfltParams [(Event.dtmf 53, 1)] = (("DTMF"), ("DTMFFRAME-5")) :=
  c5_dtmf_digit5 dfltParams [] 1 (by decide)

/-- C6: the resolved `maxWaitTimeForFrame` is at most each of the six merged
duration parameters and at most the pre-set floor default; it is only ever
decreased. -/
theorem c6_maxwait_is_min (d : Defaults) (a : Overrides) :
    (resolveParams d a).maxWaitTimeForFrame ≤ (resolveParams d a).initialSilence ∧
    (resolveParams d a).maxWaitTimeForFrame ≤ (resolveParams d a).greeting ∧
    (resolveParams d a).maxWaitTimeForFrame ≤ (resolveParams d a).afterGreetingSilence ∧
    (resolveParams d a).maxWaitTimeForFrame ≤ (resolveParams d a).totalAnalysisTime ∧
    (resolveParams d a).maxWaitTimeForFrame ≤ (resolveParams d a).minimumWordLength ∧
    (resolveParams d a).maxWaitTimeForFrame ≤ (resolveParams d a).betweenWordsSilence ∧
    (resolveParams d a).maxWaitTimeForFrame ≤ d.maxWaitTimeForFrame := by
  unfold resolveParams
  dsimp only
  split_ifs <;> refine ⟨?_, ?_, ?_, ?_, ?_, ?_, ?_⟩ <;> omega

/-- C7 counterexample: a voice frame arrives, then silence ticks whose
`ast_waitfor` result is 0 push `iTotalTime` past `totalAnalysisTime`; the
loop ends through the timeout break (loop status `NOTSURE`), a frame did
arrive, yet the published status is `NOFRAMES`, not `NOTSURE`. -/
theorem c7_counterexample :
    (runLoop c7P initSt c7Tr).status = ("NOTSURE") ∧
    c7Tr.head? = some (Event.voice 800 0, 1) ∧
    spitRun c7P c7Tr = (("NOFRAMES"), ("TIMEOUT-300")) := by decide

/-- C7 (amended): when the loop ends through the `totalAnalysisTime` timeout
break, the published status is `NOTSURE` if the final `ast_waitfor` result
was nonzero and `NOFRAMES` if it was zero (regardless of whether frames
arrived earlier), and the cause is `TIMEOUT-` followed by the accumulated
elapsed time in both cases. -/
theorem c7_timeout_statuses (p : Params) (tr : List (Event × Int))
    (h : (runLoop p initSt tr).status = ("NOTSURE")) :
    spitRun p tr =
      ((if (runLoop p initSt tr).res = 0 then ("NOFRAMES") else ("NOTSURE")),
       ("TIMEOUT-") ++ toString (runLoop p initSt tr).final.iTotalTime) := by
  have inv := runLoop_inventory p tr initSt
  have hca : (runLoop p initSt tr).cause
      = ("TIMEOUT-") ++ toString (runLoop p initSt tr).final.iTotalTime := by
    rcases inv with ⟨h1, _⟩ | shape
    · rw [h1] at h; exact absurd h (by decide)
    · unfold DoneShape at shape
      rcases shape with ⟨h1, h2⟩ | ⟨d, h1, h2⟩ | ⟨h1, h2⟩ | ⟨a, b, h1, h2⟩ | ⟨a, b, h1, h2⟩
      · rw [h1] at h; exact absurd h (by decide)
      · rw [h1] at h; exact absurd h (by decide)
      · exact h2
      · rw [h1] at h; exact absurd h (by decide)
      · rw [h1] at h; exact absurd h (by decide)
  simp only [spitRun]
  by_cases hres : (runLoop p initSt tr).res = 0
  · rw [if_pos hres, if_pos hres]
  · rw [if_neg hres, if_neg hres, h, hca]

/-- C7 witness: a run that times out with a nonzero final waitfor result. -/
theorem c7_timeout_statuses_witness :
    spitRun c7WP c7WTr =
      ((if (runLoop c7WP initSt c7WTr).res = 0 then ("NOFRAMES") else ("NOTSURE")),
       ("TIMEOUT-") ++ toString (runLoop c7WP initSt c7WTr).final.iTotalTime) :=
  c7_timeout_statuses c7WP c7WTr (by decide)

/-- C8: the detection machine is a pure function of the frame sequence and
the parameter set: replaying identical inputs publishes the identical
status/cause pair. -/
theorem c8_deterministic (p₁ p₂ : Params) (tr₁ tr₂ : List (Event × Int))
    (hp : p₁ = p₂) (htr : tr₁ = tr₂) : spitRun p₁ tr₁ = spitRun p₂ tr₂ := by
  subst hp
  subst htr
  rfl

/-- C8 witness: replaying one concrete run. -/
theorem c8_deterministic_witness :
    spitRun dfltParams [(Event.dtmf 53, 1)] = spitRun dfltParams [(Event.dtmf 53, 1)] :=
  c8_deterministic dfltParams dfltParams [(Event.dtmf 53, 1)] [(Event.dtmf 53, 1)] rfl rfl

/-- C9: the published status is one of the six loop statuses (or the untouched
empty buffer when `ast_waitfor` fails before any decision); `DIALER` is never
published and no cause begins with `RECORDING`, although both appear in the
documented result sets. -/
theorem c9_no_dialer_no_recording (p : Params) (tr : List (Event × Int)) :
    ((spitRun p tr).1 = ("") ∨ (spitRun p tr).1 = ("HUMAN") ∨
     (spitRun p tr).1 = ("MACHINE") ∨ (spitRun p tr).1 = ("DTMF") ∨
     (spitRun p tr).1 = ("NOTSURE") ∨ (spitRun p tr).1 = ("HANGUP") ∨
     (spitRun p tr).1 = ("NOFRAMES")) ∧
    (spitRun p tr).1 ≠ ("DIALER") ∧
    beginsWith ("RECORDING") (spitRun p tr).2 = false := by
  have inv := runLoop_inventory p tr initSt
  simp only [spitRun]
  by_cases hres : (runLoop p initSt tr).res = 0
  · rw [if_pos hres]
    exact ⟨Or.inr (Or.inr (Or.inr (Or.inr (Or.inr (Or.inr rfl))))),
      (show (("NOFRAMES") : String) ≠ ("DIALER") by decide),
      not_bw_recording_timeout _⟩
  · rw [if_neg hres]
    rcases inv with ⟨h1, h2⟩ | shape
    · rw [h1, h2]
      exact ⟨Or.inl rfl, (show (("") : String) ≠ ("DIALER") by decide), by decide⟩
    · unfold DoneShape at shape
      rcases shape with ⟨h1, h2⟩ | ⟨d, h1, h2⟩ | ⟨h1, h2⟩ | ⟨a, b, h1, h2 | h2⟩ |
        ⟨a, b, h1, h2 | h2 | h2⟩ <;> rw [h1, h2]
      · exact ⟨Or.inr (Or.inr (Or.inr (Or.inr (Or.inr (Or.inl rfl))))),
          (show (("HANGUP") : String) ≠ ("DIALER") by decide), by decide⟩
      · exact ⟨Or.inr (Or.inr (Or.inr (Or.inl rfl))),
          (show (("DTMF") : String) ≠ ("DIALER") by decide), not_bw_recording_dtmf _⟩
      · exact ⟨Or.inr (Or.inr (Or.inr (Or.inr (Or.inl rfl)))),
          (show (("NOTSURE") : String) ≠ ("DIALER") by decide), not_bw_recording_timeout _⟩
      · exact ⟨Or.inr (Or.inl rfl), (show (("HUMAN") : String) ≠ ("DIALER") by decide),
          not_bw_recording_initialsilence _ _⟩
      · exact ⟨Or.inr (Or.inl rfl), (show (("HUMAN") : String) ≠ ("DIALER") by decide),
          not_bw_recording_afternoise _ _⟩
      · exact ⟨Or.inr (Or.inr (Or.inl rfl)), (show (("MACHINE") : String) ≠ ("DIALER") by decide),
          not_bw_recording_maxwordlength _⟩
      · exact ⟨Or.inr (Or.inr (Or.inl rfl)), (show (("MACHINE") : String) ≠ ("DIALER") by decide),
          not_bw_recording_maxwords _ _⟩
      · exact ⟨Or.inr (Or.inr (Or.inl rfl)), (show (("MACHINE") : String) ≠ ("DIALER") by decide),
          not_bw_recording_longgreeting _ _⟩

/-- C10: at every state reachable by the detection loop, `inInitialSilence`
is the negation of `inGreeting`: they start as `1`/`0` and are only ever
modified together by the one-time first-word transition. -/
theorem c10_phase_flags_opposite (p : Params) (tr : List (Event × Int)) :
    (runLoop p initSt tr).final.inInitialSilence
      = !(runLoop p initSt tr).final.inGreeting :=
  runLoop_flags p tr initSt rfl

end AppSpit
